import Mathlib

/-!
Verification of the backend of the gmail_tracking repository
(src/backend/app.py), a Flask service that records email-open and
link-click events in a MongoDB store.

The embedding models the three MongoDB collections as Lean lists, the
geolocation provider as an oracle function, and each Flask route handler
as a pure function from (oracle, failure flags, store, request) to
(store, response).  Exception-raising storage calls are modelled by
Boolean failure flags: a raised exception aborts the remainder of the
enclosing Python try-block, exactly as in the source.
-/

namespace GmailTracking

/-- Outcome of one call to the external geolocation HTTP API
(requests.get in get_ip_info): a 200 response with a payload, a non-200
status, or a raised RequestException. -/
inductive ExtOutcome where
  | success (payload : String)
  | httpError (status : Nat)
  | exn
  deriving Repr, DecidableEq

/-- The external geolocation service, modelled as an oracle from the
queried IP address to the outcome of the HTTP call. -/
def ExtOracle : Type := String → ExtOutcome

/-- The dictionary returned by get_ip_info: the private/local note, a
successful geo payload, or one of the two error markers produced by its
error handling. -/
inductive GeoResult where
  | localNote
  | geoData (payload : String)
  | apiStatusError (status : Nat)
  | apiRequestError
  deriving Repr, DecidableEq

/-- str.startswith, computed on the character lists of the strings. -/
def startsWithStr (s p : String) : Bool := p.data.isPrefixOf s.data

/-- The tuple-prefix test in get_ip_info:
ip_address.startswith(('127.0.0.1', '192.168.', '10.', '172.')). -/
def ipHasLocalPrefix (ip : String) : Bool :=
  startsWithStr ip "127.0.0.1" || startsWithStr ip "192.168." ||
    startsWithStr ip "10." || startsWithStr ip "172."

/-- get_ip_info from app.py: return the local note for addresses matching
the prefix tuple, otherwise call the external API, mapping a 200 response
to the geo payload, a non-200 status to a status-error marker, and a
RequestException to the request-error marker. -/
def get_ip_info (ext : ExtOracle) (ip_address : String) : GeoResult :=
  if ipHasLocalPrefix ip_address then
    GeoResult.localNote
  else
    match ext ip_address with
    | ExtOutcome.success p => GeoResult.geoData p
    | ExtOutcome.httpError s => GeoResult.apiStatusError s
    | ExtOutcome.exn => GeoResult.apiRequestError

/-- A document of the open_events collection: the event_record dictionary
built in track_final_confirmation.  The geo_info key is present only when
the handler attaches it, hence an Option. -/
structure OpenEvent where
  uid : String
  ip : String
  user_agent : String
  opened_at : String
  is_real_open : Bool
  geo_info : Option GeoResult
  deriving Repr, DecidableEq

/-- A document of the clicks collection: the click_record dictionary built
in track_click. -/
structure ClickEvent where
  uid : String
  destination_url : String
  ip : String
  user_agent : String
  clicked_at : String
  geo_info : GeoResult
  deriving Repr, DecidableEq

/-- A document of the tracked_emails collection (the TrackingSummary).
open_count is created by the $inc of the first upsert; click_count is
absent until the first click on an existing document, hence an Option. -/
structure Summary where
  id : String
  open_count : Nat
  click_count : Option Nat
  first_opened_at : Option String
  last_opened_at : Option String
  created_at : Option String
  deriving Repr, DecidableEq

/-- The three MongoDB collections used by the service. -/
structure Store where
  tracked_emails : List Summary
  open_events : List OpenEvent
  clicks : List ClickEvent
  deriving Repr, DecidableEq

/-- The empty database. -/
def Store.empty : Store := ⟨[], [], []⟩

/-- find_one on tracked_emails by _id (the _id field is unique, so the
first match is the match). -/
def findSummary (ts : List Summary) (id : String) : Option Summary :=
  ts.find? (fun t => t.id == id)

/-- update_one({'_id': id}, {'$inc': {'open_count': 1}, '$set': {...},
'$setOnInsert': {...}}, upsert=True): increment open_count and set
last_opened_at on the first document whose _id matches; if none matches,
insert a fresh document whose set-on-insert fields are the current time. -/
def incOpen (id now : String) : List Summary → List Summary
  | [] => [{ id := id, open_count := 1, click_count := none,
             first_opened_at := some now, last_opened_at := some now,
             created_at := some now }]
  | t :: ts =>
      if t.id == id then
        { t with open_count := t.open_count + 1, last_opened_at := some now } :: ts
      else
        t :: incOpen id now ts

/-- update_one({'_id': id}, {'$inc': {'click_count': 1}}) with no upsert
flag: increment click_count on the first matching document (an absent
click_count field is treated as 0 by $inc); if no document matches,
nothing changes. -/
def incClick (id : String) : List Summary → List Summary
  | [] => []
  | t :: ts =>
      if t.id == id then
        { t with click_count := some (t.click_count.getD 0 + 1) } :: ts
      else
        t :: incClick id ts

/-- Substring containment, modelling the Python expression
needle in haystack. -/
def containsSubstr (needle haystack : String) : Bool :=
  (List.range (haystack.length + 1)).any
    (fun i => needle.data.isPrefixOf (haystack.data.drop i))

/-- The base64 text of the constant TRANSPARENT_PNG payload. -/
def TRANSPARENT_PNG_B64 : String :=
  "iVBORw0KGgoAAAANSUhEUgAAAAEAAAABCAYAAAAfFcSJAAAADUlEQVR42mNkYPhfDwAChwGA60e6kgAAAABJRU5ErkJggg=="

/-- An HTTP response of the service, covering every shape the modelled
routes produce. -/
inductive Response where
  | file (payload : String) (mimetype : String)
  | redirect (code : Nat) (location : String)
  | clientError (code : Nat) (body : String)
  | statsOk (total_opens total_clicks unique_tracking_ids : Nat)
  | errorJson (code : Nat) (message : String)
  deriving Repr, DecidableEq

/-- The response send_file(io.BytesIO(TRANSPARENT_PNG), mimetype=png):
the fixed transparent-pixel payload with an image content type. -/
def pixelResponse : Response := Response.file TRANSPARENT_PNG_B64 "image/png"

/-- Route /track (track_initial_request).  The id query parameter is an
Option; Python falsiness makes both a missing and an empty id take the
pixel branch.  fresh_id stands for str(uuid.uuid4()); base stands for the
scheme-and-host part produced by url_for(..., _external=True).  The
handler performs no database call, so the store is returned unchanged. -/
def track_initial_request (base : String) (fresh_id : String)
    (st : Store) (tracking_id : Option String) : Store × Response :=
  match tracking_id with
  | none => (st, pixelResponse)
  | some t =>
      if t = "" then (st, pixelResponse)
      else (st, Response.redirect 307 (base ++ "/track-final/" ++ t ++ "/" ++ fresh_id))

/-- A request to /track-final/tracking_id/request_id, with the header
fields the handler reads and the timestamp datetime.utcnow() it takes. -/
structure FinalReq where
  tracking_id : String
  request_id : String
  user_agent : String
  ip : String
  now : String
  deriving Repr, DecidableEq

/-- Route /track-final (track_final_confirmation).  updateFails and
insertFails model the two storage calls raising: both sit in one
try-block, so a raised update skips the insert, and either way the
handler falls through to returning the pixel. -/
def track_final_confirmation (ext : ExtOracle) (updateFails insertFails : Bool)
    (st : Store) (r : FinalReq) : Store × Response :=
  let is_google_proxy := containsSubstr "GoogleImageProxy" r.user_agent
  let base_record : OpenEvent :=
    { uid := r.tracking_id, ip := r.ip, user_agent := r.user_agent,
      opened_at := r.now, is_real_open := is_google_proxy, geo_info := none }
  if is_google_proxy then
    let event_record := { base_record with geo_info := some (get_ip_info ext r.ip) }
    if updateFails then (st, pixelResponse)
    else
      let st1 := { st with tracked_emails := incOpen r.tracking_id r.now st.tracked_emails }
      if insertFails then (st1, pixelResponse)
      else ({ st1 with open_events := st1.open_events ++ [event_record] }, pixelResponse)
  else
    if insertFails then (st, pixelResponse)
    else ({ st with open_events := st.open_events ++ [base_record] }, pixelResponse)

/-- A request to /click, with the two query parameters (absent or
present), the header fields and the timestamp. -/
structure ClickReq where
  uid : Option String
  url : Option String
  ip : String
  user_agent : String
  now : String
  deriving Repr, DecidableEq

/-- Python truthiness of an optional query parameter: present and
non-empty. -/
def truthy : Option String → Bool
  | none => false
  | some s => s ≠ ""

/-- The scheme check of track_click:
destination_url.startswith http or https. -/
def hasHttpScheme (url : String) : Bool :=
  startsWithStr url "http://" || startsWithStr url "https://"

/-- Route /click (track_click).  Both storage calls sit in one try-block,
so a raised insert skips the summary update; the redirect is issued after
the try-block regardless.  insertFails and updateFails model those two
calls raising. -/
def track_click (ext : ExtOracle) (insertFails updateFails : Bool)
    (st : Store) (r : ClickReq) : Store × Response :=
  if !(truthy r.uid) || !(truthy r.url) then
    (st, Response.clientError 400 "Error: Missing tracking ID or destination URL.")
  else
    let tracking_id := r.uid.getD ""
    let destination_url := r.url.getD ""
    if !(hasHttpScheme destination_url) then
      (st, Response.clientError 400 "Error: Invalid destination URL format.")
    else
      let geo_info := get_ip_info ext r.ip
      let click_record : ClickEvent :=
        { uid := tracking_id, destination_url := destination_url,
          ip := r.ip, user_agent := r.user_agent,
          clicked_at := r.now, geo_info := geo_info }
      if insertFails then (st, Response.redirect 307 destination_url)
      else
        let st1 := { st with clicks := st.clicks ++ [click_record] }
        if updateFails then (st1, Response.redirect 307 destination_url)
        else ({ st1 with tracked_emails := incClick tracking_id st1.tracked_emails },
              Response.redirect 307 destination_url)

/-- $group $sum aggregation of get_stats over tracked_emails: an empty
collection yields an empty result list, otherwise one group holding the
sums of open_count and click_count ($sum treats an absent field as 0). -/
def aggregateTotals (ts : List Summary) : List (Nat × Nat) :=
  if ts.isEmpty then []
  else [(ts.foldl (fun a t => a + t.open_count) 0,
         ts.foldl (fun a t => a + t.click_count.getD 0) 0)]

/-- Route /api/stats (get_stats).  fail carries the exception message of a
raised storage call, turned into a 500 JSON error; otherwise the totals
come from the aggregation pipeline and count_documents. -/
def get_stats (fail : Option String) (ts : List Summary) : Response :=
  match fail with
  | some e => Response.errorJson 500 e
  | none =>
      match aggregateTotals ts with
      | [] => Response.statsOk 0 0 ts.length
      | x :: _ => Response.statsOk x.1 x.2 ts.length

/-- Number of path parameters the route /api/details/tracking_id
passes to its view function as keyword arguments. -/
def detailsRouteParamCount : Nat := 1

/-- Number of parameters the view function get_tracking_details() accepts:
its definition in app.py takes none. -/
def get_tracking_details_paramCount : Nat := 0

/-- /api/details as intended by its body: 404 when no summary matches,
otherwise the summary with the confirmed opens and all clicks.  (The
response detail payloads are elided; only reachability matters here.) -/
def detailsBody (st : Store) (tracking_id : String) : Response :=
  match findSummary st.tracked_emails tracking_id with
  | none => Response.errorJson 404 "Tracking ID not found"
  | some _ => Response.errorJson 200 "details"

/-- Flask dispatch of /api/details: the route supplies its path parameter
as a keyword argument, so when the view function accepts a different
number of parameters the call raises TypeError before the body runs and
Flask answers with a 500 internal server error. -/
def dispatchDetails (st : Store) (tracking_id : String) : Response :=
  if detailsRouteParamCount = get_tracking_details_paramCount then
    detailsBody st tracking_id
  else
    Response.errorJson 500 "TypeError: get_tracking_details() got an unexpected keyword argument"

/-- One state-changing request of the service: a Hop-2 confirmation hit
or a click, each carrying its request data and the outcome flags of its
storage calls. -/
inductive Req where
  | hop2 (tracking_id request_id user_agent ip now : String)
      (updateFails insertFails : Bool)
  | click (uid url : Option String) (ip user_agent now : String)
      (insertFails updateFails : Bool)
  deriving Repr, DecidableEq

/-- The store after handling one request. -/
def stepStore (ext : ExtOracle) (st : Store) : Req → Store
  | Req.hop2 tid rid ua ip now uf inf =>
      (track_final_confirmation ext uf inf st ⟨tid, rid, ua, ip, now⟩).1
  | Req.click uid url ip ua now inf uf =>
      (track_click ext inf uf st ⟨uid, url, ip, ua, now⟩).1

/-- The store after handling a sequence of requests in order. -/
def runReqs (ext : ExtOracle) (st : Store) : List Req → Store
  | [] => st
  | r :: rs => runReqs ext (stepStore ext st r) rs

/-- Every storage call of every request in the trace succeeds. -/
def noStorageFailures (rs : List Req) : Bool :=
  rs.all (fun r =>
    match r with
    | Req.hop2 _ _ _ _ _ uf inf => !uf && !inf
    | Req.click _ _ _ _ _ inf uf => !inf && !uf)

/-- Whether a click request passes both validations of track_click and so
reaches the storage calls. -/
def clickAccepted (uid url : Option String) : Bool :=
  truthy uid && truthy url && hasHttpScheme (url.getD "")

/-- A summary document for the identifier exists. -/
def summaryExists (ts : List Summary) (id : String) : Bool :=
  (findSummary ts id).isSome

/-- Every accepted click of the trace targets an identifier whose summary
document already exists when the click is handled. -/
def clicksSafe (ext : ExtOracle) : Store → List Req → Bool
  | _, [] => true
  | st, r :: rs =>
      (match r with
       | Req.click uid url _ _ _ _ _ =>
           !(clickAccepted uid url) || summaryExists st.tracked_emails (uid.getD "")
       | _ => true) && clicksSafe ext (stepStore ext st r) rs

/-- open_count recorded in the summary for an identifier, 0 when no
summary document exists. -/
def summaryOpenCount (st : Store) (id : String) : Nat :=
  match findSummary st.tracked_emails id with
  | some s => s.open_count
  | none => 0

/-- click_count recorded in the summary for an identifier, 0 when no
summary document exists or the field is absent. -/
def summaryClickCount (st : Store) (id : String) : Nat :=
  match findSummary st.tracked_emails id with
  | some s => s.click_count.getD 0
  | none => 0

/-- Number of stored OpenEvents for an identifier classified as
confirmed (is_real_open = true). -/
def confirmedOpens (st : Store) (id : String) : Nat :=
  (st.open_events.filter (fun e => e.uid == id && e.is_real_open)).length

/-- Number of stored ClickEvents for an identifier. -/
def storedClicks (st : Store) (id : String) : Nat :=
  (st.clicks.filter (fun e => e.uid == id)).length

/-- Split a character list on the dot character. -/
def splitDot : List Char → List (List Char)
  | [] => [[]]
  | c :: cs =>
      if c = '.' then [] :: splitDot cs
      else
        match splitDot cs with
        | g :: gs => (c :: g) :: gs
        | [] => [[c]]

/-- The numeric value of a decimal digit character, none otherwise. -/
def digitVal? (c : Char) : Option Nat :=
  if 48 ≤ c.toNat ∧ c.toNat ≤ 57 then some (c.toNat - 48) else none

/-- Parse a non-empty list of decimal digit characters as a Nat. -/
def parseNat? (l : List Char) : Option Nat :=
  if l.isEmpty then none
  else
    l.foldl (fun acc c =>
      match acc, digitVal? c with
      | some a, some d => some (a * 10 + d)
      | _, _ => none) (some 0)

/-- Parse a dotted-quad IP string into its four numeric octets. -/
def ipOctets (ip : String) : Option (Nat × Nat × Nat × Nat) :=
  match (splitDot ip.data).map parseNat? with
  | [some a, some b, some c, some d] => some (a, b, c, d)
  | _ => none

/-- Stated from the spec wording, for comparison with the code's prefix
check: membership of an address in a private or loopback range, i.e.
127.0.0.0/8 (loopback), 10.0.0.0/8, 172.16.0.0/12 or 192.168.0.0/16. -/
def inPrivateOrLoopbackRange (ip : String) : Bool :=
  match ipOctets ip with
  | some (a, b, _, _) =>
      a == 127 || a == 10 || (a == 172 && 16 ≤ b && b ≤ 31) || (a == 192 && b == 168)
  | none => false

/-- Sum of open_count over a list of summaries. -/
def totalOpens (ts : List Summary) : Nat := (ts.map (fun t => t.open_count)).sum

/-- Sum of click_count over a list of summaries, an absent field counting
as zero. -/
def totalClicks (ts : List Summary) : Nat := (ts.map (fun t => t.click_count.getD 0)).sum

/-- A geolocation oracle whose every call raises a RequestException. -/
def extExn : ExtOracle := fun _ => ExtOutcome.exn

/-- A geolocation oracle whose every call returns a 200 payload. -/
def extOk : ExtOracle := fun _ => ExtOutcome.success "geo"

/-- A concrete injective generator standing in for str(uuid.uuid4()):
the n-th attempt identifier is a string of n repeated characters. -/
def attemptGen (n : Nat) : String := String.mk (List.replicate n 'a')

/-- The per-identifier count invariant of the spec: the summary's
open_count equals the number of stored confirmed OpenEvents and its
click_count (absent counting as zero) equals the number of stored
ClickEvents. -/
def countsInvariant (st : Store) : Prop :=
  ∀ id, summaryOpenCount st id = confirmedOpens st id ∧
        summaryClickCount st id = storedClicks st id

/-- The trace of the C1 witness: a confirmed open of identifier t
followed by a click on t, every storage step succeeding. -/
def c1Trace : List Req :=
  [Req.hop2 "t" "r1" "GoogleImageProxy" "9.9.9.9" "t0" false false,
   Req.click (some "t") (some "https://e.com") "8.8.8.8" "ua" "t1" false false]

/-- Left cancellation of string concatenation. -/
theorem string_append_cancel_left {p a b : String} (h : p ++ a = p ++ b) : a = b := by
  apply String.ext
  have hd := congrArg String.data h
  rw [String.data_append, String.data_append] at hd
  exact List.append_cancel_left hd

theorem attemptGen_inj : Function.Injective attemptGen := by
  intro m n h
  have hd : List.replicate m 'a' = List.replicate n 'a' := congrArg String.data h
  have hl := congrArg List.length hd
  simpa using hl

/-- Claim C3: every request to the confirmation endpoint is answered with
the fixed transparent-pixel payload served with an image content type,
whatever the geolocation oracle does and whether or not the summary
upsert or the event insert raises; no error response is produced. -/
theorem C3_track_final_always_pixel (ext : ExtOracle) (updateFails insertFails : Bool)
    (st : Store) (r : FinalReq) :
    (track_final_confirmation ext updateFails insertFails st r).2 =
      Response.file TRANSPARENT_PNG_B64 "image/png" := by
  unfold track_final_confirmation
  cases h : containsSubstr "GoogleImageProxy" r.user_agent <;>
    cases updateFails <;> cases insertFails <;> simp [h, pixelResponse]

/-- Claim C4 (code bug): for every store state and every tracking
identifier, dispatching /api/details raises a TypeError because the view
function accepts no parameters while the route passes one, so the client
receives a 500 internal server error instead of the specified 404 or
summary payload. -/
theorem C4_details_always_500 (st : Store) (tracking_id : String) :
    dispatchDetails st tracking_id =
      Response.errorJson 500
        "TypeError: get_tracking_details() got an unexpected keyword argument" := by
  rfl

/-- Claim C6: Hop 1 with a missing identifier answers the pixel, issues
no redirect and leaves the store untouched; with a present (non-empty)
identifier it answers a 307 redirect to /track-final/<same id>/<fresh
attempt id> with the store untouched, and for an injective attempt-id
generator, distinct calls mint distinct attempt identifiers and produce
distinct redirect responses. -/
theorem C6_hop1 (base fresh : String) (st : Store) :
    track_initial_request base fresh st none = (st, pixelResponse) ∧
    (∀ t, t ≠ "" →
      track_initial_request base fresh st (some t) =
        (st, Response.redirect 307 (base ++ "/track-final/" ++ t ++ "/" ++ fresh))) ∧
    (∀ (gen : Nat → String) (n₁ n₂ : Nat), Function.Injective gen → n₁ ≠ n₂ →
      gen n₁ ≠ gen n₂ ∧
      ∀ t, t ≠ "" →
        (track_initial_request base (gen n₁) st (some t)).2 ≠
          (track_initial_request base (gen n₂) st (some t)).2) := by
  refine ⟨rfl, ?_, ?_⟩
  · intro t ht
    simp [track_initial_request, ht]
  · intro gen n₁ n₂ hinj hne
    refine ⟨fun h => hne (hinj h), ?_⟩
    intro t ht
    simp only [track_initial_request, ht, if_neg ht]
    intro h
    have h2 : base ++ "/track-final/" ++ t ++ "/" ++ gen n₁ =
        base ++ "/track-final/" ++ t ++ "/" ++ gen n₂ := by
      simpa using h
    exact hne (hinj (string_append_cancel_left h2))

/-- Witness for C6 at concrete inputs: a present identifier is redirected
to the expected path, and the generator's first two attempt identifiers
give different identifiers and different responses. -/
theorem C6_hop1_witness :
    track_initial_request "http://h" "f0" Store.empty (some "t") =
      (Store.empty, Response.redirect 307 ("http://h" ++ "/track-final/" ++ "t" ++ "/" ++ "f0")) ∧
    attemptGen 0 ≠ attemptGen 1 ∧
    (track_initial_request "http://h" (attemptGen 0) Store.empty (some "t")).2 ≠
      (track_initial_request "http://h" (attemptGen 1) Store.empty (some "t")).2 := by
  refine ⟨(C6_hop1 "http://h" "f0" Store.empty).2.1 "t" (by decide), ?_, ?_⟩
  · exact (((C6_hop1 "http://h" "f0" Store.empty).2.2 attemptGen 0 1 attemptGen_inj
      (by decide))).1
  · exact (((C6_hop1 "http://h" "f0" Store.empty).2.2 attemptGen 0 1 attemptGen_inj
      (by decide))).2 "t" (by decide)

/-- Claim C7: a click request with a missing or empty identifier or URL
is answered 400 with the store untouched; one whose URL lacks an http or
https scheme is answered 400 with the store untouched; a valid one is
answered with a 307 redirect to exactly the given destination URL,
whatever the outcome of the two storage calls. -/
theorem C7_click_validation (ext : ExtOracle) (insertFails updateFails : Bool)
    (st : Store) (r : ClickReq) :
    (truthy r.uid = false ∨ truthy r.url = false →
      track_click ext insertFails updateFails st r =
        (st, Response.clientError 400 "Error: Missing tracking ID or destination URL.")) ∧
    (truthy r.uid = true → truthy r.url = true → hasHttpScheme (r.url.getD "") = false →
      track_click ext insertFails updateFails st r =
        (st, Response.clientError 400 "Error: Invalid destination URL format.")) ∧
    (truthy r.uid = true → truthy r.url = true → hasHttpScheme (r.url.getD "") = true →
      (track_click ext insertFails updateFails st r).2 =
        Response.redirect 307 (r.url.getD "")) := by
  refine ⟨?_, ?_, ?_⟩
  · intro h
    rcases h with h | h <;> simp [track_click, h]
  · intro h1 h2 h3
    simp [track_click, h1, h2, h3]
  · intro h1 h2 h3
    cases hi : insertFails <;> cases hu : updateFails <;>
      simp [track_click, h1, h2, h3]

/-- Witness for C7 at concrete inputs: a missing identifier and an
ftp URL are both rejected with 400, and a valid request is redirected to
exactly its destination. -/
theorem C7_click_validation_witness :
    track_click extExn false false Store.empty
        ⟨none, some "https://e.com", "9.9.9.9", "ua", "t0"⟩ =
      (Store.empty, Response.clientError 400 "Error: Missing tracking ID or destination URL.") ∧
    track_click extExn false false Store.empty
        ⟨some "t", some "ftp://x", "9.9.9.9", "ua", "t0"⟩ =
      (Store.empty, Response.clientError 400 "Error: Invalid destination URL format.") ∧
    (track_click extExn false false Store.empty
        ⟨some "t", some "https://e.com", "9.9.9.9", "ua", "t0"⟩).2 =
      Response.redirect 307 ((some "https://e.com").getD "") := by
  refine ⟨?_, ?_, ?_⟩
  · exact (C7_click_validation extExn false false Store.empty
      ⟨none, some "https://e.com", "9.9.9.9", "ua", "t0"⟩).1 (Or.inl (by decide))
  · exact (C7_click_validation extExn false false Store.empty
      ⟨some "t", some "ftp://x", "9.9.9.9", "ua", "t0"⟩).2.1 (by decide) (by decide) (by decide)
  · exact (C7_click_validation extExn false false Store.empty
      ⟨some "t", some "https://e.com", "9.9.9.9", "ua", "t0"⟩).2.2
      (by decide) (by decide) (by decide)

/-- Claim C9: without a storage failure, /api/stats reports the sum of
open_count over all summaries, the sum of click_count treating an absent
field as zero, and the number of summary documents; on a storage failure
it reports a structured 500 error carrying the exception message and no
totals. -/
theorem C9_stats (ts : List Summary) (e : String) :
    get_stats none ts = Response.statsOk (totalOpens ts) (totalClicks ts) ts.length ∧
    get_stats (some e) ts = Response.errorJson 500 e := by
  constructor
  · unfold get_stats aggregateTotals totalOpens totalClicks
    cases ts with
    | nil => rfl
    | cons t ts =>
        simp [List.sum_eq_foldl, List.foldl_map]
  · rfl

/-- A URL that passes the scheme check is not the empty string. -/
theorem hasHttpScheme_ne_empty {url : String} (h : hasHttpScheme url = true) : url ≠ "" := by
  intro he
  subst he
  exact absurd h (by decide)

/-- Looking up the incremented identifier after incClick: the summary, if
present, carries click_count one above its previous value (an absent
field counting as zero); an absent summary stays absent. -/
theorem findSummary_incClick_self (ts : List Summary) (id : String) :
    findSummary (incClick id ts) id =
      (findSummary ts id).map
        (fun s => { s with click_count := some (s.click_count.getD 0 + 1) }) := by
  induction ts with
  | nil => rfl
  | cons t ts ih =>
      cases h : (t.id == id) with
      | true => simp [incClick, findSummary, h]
      | false =>
          simp only [incClick, h, Bool.false_eq_true, if_false]
          unfold findSummary at ih ⊢
          rw [List.find?_cons_of_neg _ (by simp [h]),
              List.find?_cons_of_neg _ (by simp [h])]
          exact ih

/-- incClick leaves every other identifier's summary untouched. -/
theorem findSummary_incClick_other (ts : List Summary) (id id' : String)
    (h : id' ≠ id) :
    findSummary (incClick id ts) id' = findSummary ts id' := by
  induction ts with
  | nil => rfl
  | cons t ts ih =>
      cases ht : (t.id == id) with
      | true =>
          have ht' : (t.id == id') = false := by
            have he : t.id = id := by simpa using ht
            subst he
            simpa using fun hh => h hh.symm
          simp [incClick, findSummary, ht, ht']
      | false =>
          cases ht' : (t.id == id') with
          | true => simp [incClick, findSummary, ht, ht']
          | false =>
              simp only [incClick, ht, Bool.false_eq_true, if_false]
              unfold findSummary at ih ⊢
              rw [List.find?_cons_of_neg _ (by simp [ht']),
                  List.find?_cons_of_neg _ (by simp [ht'])]
              exact ih

/-- Looking up the upserted identifier after incOpen: an existing summary
gets open_count one higher and a fresh last_opened_at; an absent one is
created with open_count 1 and all timestamps set to now. -/
theorem findSummary_incOpen_self (ts : List Summary) (id now : String) :
    findSummary (incOpen id now ts) id =
      some (match findSummary ts id with
            | some s => { s with open_count := s.open_count + 1, last_opened_at := some now }
            | none => { id := id, open_count := 1, click_count := none,
                        first_opened_at := some now, last_opened_at := some now,
                        created_at := some now }) := by
  induction ts with
  | nil => simp [incOpen, findSummary]
  | cons t ts ih =>
      cases h : (t.id == id) with
      | true => simp [incOpen, findSummary, h]
      | false =>
          simp only [incOpen, h, Bool.false_eq_true, if_false]
          unfold findSummary at ih ⊢
          rw [List.find?_cons_of_neg _ (by simp [h]),
              List.find?_cons_of_neg _ (by simp [h])]
          exact ih

/-- incOpen leaves every other identifier's summary untouched. -/
theorem findSummary_incOpen_other (ts : List Summary) (id now id' : String)
    (h : id' ≠ id) :
    findSummary (incOpen id now ts) id' = findSummary ts id' := by
  induction ts with
  | nil =>
      simp only [incOpen, findSummary]
      rw [List.find?_cons_of_neg _ (by simpa using fun hh => h hh.symm)]
  | cons t ts ih =>
      cases ht : (t.id == id) with
      | true =>
          have ht' : (t.id == id') = false := by
            have he : t.id = id := by simpa using ht
            subst he
            simpa using fun hh => h hh.symm
          simp [incOpen, findSummary, ht, ht']
      | false =>
          cases ht' : (t.id == id') with
          | true => simp [incOpen, findSummary, ht, ht']
          | false =>
              simp only [incOpen, ht, Bool.false_eq_true, if_false]
              unfold findSummary at ih ⊢
              rw [List.find?_cons_of_neg _ (by simp [ht']),
                  List.find?_cons_of_neg _ (by simp [ht'])]
              exact ih

/-- Claim C8 counterexample: the loopback address 127.0.0.2 is sent to
the external lookup (the oracle's answer shows through), and the public
address 172.32.0.1, in no private range, never reaches the lookup and is
annotated local instead. -/
theorem C8_counterexample :
    inPrivateOrLoopbackRange "127.0.0.2" = true ∧
    get_ip_info extOk "127.0.0.2" ≠ get_ip_info extExn "127.0.0.2" ∧
    inPrivateOrLoopbackRange "172.32.0.1" = false ∧
    get_ip_info extOk "172.32.0.1" = GeoResult.localNote := by
  refine ⟨by decide, by decide, by decide, by decide⟩

/-- Claim C8 amended: the helper skips the external lookup, returning the
local annotation independently of the oracle, exactly for addresses whose
text starts with one of the literal prefixes 127.0.0.1, 192.168., 10. or
172.; every other address reaches the external call (the oracle's answer
determines the result). -/
theorem C8_amended (ip : String) :
    (ipHasLocalPrefix ip = true →
      (∀ e : ExtOracle, get_ip_info e ip = GeoResult.localNote) ∧
      (∀ e₁ e₂ : ExtOracle, get_ip_info e₁ ip = get_ip_info e₂ ip)) ∧
    (ipHasLocalPrefix ip = false →
      get_ip_info extOk ip ≠ get_ip_info extExn ip) := by
  constructor
  · intro h
    constructor
    · intro e
      simp [get_ip_info, h]
    · intro e₁ e₂
      simp [get_ip_info, h]
  · intro h
    simp [get_ip_info, h, extOk, extExn]

/-- Witness for C8 at concrete inputs: 10.0.0.1 is annotated local with
the lookup never consulted; 8.8.8.8 reaches the lookup. -/
theorem C8_amended_witness :
    get_ip_info extExn "10.0.0.1" = GeoResult.localNote ∧
    get_ip_info extOk "8.8.8.8" ≠ get_ip_info extExn "8.8.8.8" := by
  constructor
  · exact ((C8_amended "10.0.0.1").1 (by decide)).1 extExn
  · exact (C8_amended "8.8.8.8").2 (by decide)

/-- Claim C2 counterexample: a first, fully successful, valid click on a
fresh identifier completes with its redirect, yet the summary collection
is still empty — no summary with click_count 1 was created, because the
click-side update_one has no upsert flag. -/
theorem C2_counterexample :
    (track_click extExn false false Store.empty
        ⟨some "t", some "https://e.com", "9.9.9.9", "ua", "t0"⟩).2 =
      Response.redirect 307 "https://e.com" ∧
    (track_click extExn false false Store.empty
        ⟨some "t", some "https://e.com", "9.9.9.9", "ua", "t0"⟩).1.tracked_emails = [] := by
  refine ⟨by decide, by decide⟩

/-- Claim C2 amended: the click-count update is a plain update without
upsert semantics: a valid click leaves an absent summary absent (the
increment is lost), and increments click_count on an existing summary,
an absent click_count field counting as zero. -/
theorem C2_amended (ext : ExtOracle) (st : Store) (u dest ip ua now : String)
    (hu : u ≠ "") (hd : hasHttpScheme dest = true) :
    (track_click ext false false st ⟨some u, some dest, ip, ua, now⟩).1.tracked_emails =
      incClick u st.tracked_emails ∧
    (findSummary st.tracked_emails u = none →
      findSummary (track_click ext false false st
          ⟨some u, some dest, ip, ua, now⟩).1.tracked_emails u = none) ∧
    (∀ s, findSummary st.tracked_emails u = some s →
      findSummary (track_click ext false false st
          ⟨some u, some dest, ip, ua, now⟩).1.tracked_emails u =
        some { s with click_count := some (s.click_count.getD 0 + 1) }) := by
  have hdne : dest ≠ "" := hasHttpScheme_ne_empty hd
  have hmain : (track_click ext false false st
      ⟨some u, some dest, ip, ua, now⟩).1.tracked_emails = incClick u st.tracked_emails := by
    simp [track_click, truthy, hu, hdne, hd]
  refine ⟨hmain, ?_, ?_⟩
  · intro hnone
    rw [hmain, findSummary_incClick_self, hnone]
    rfl
  · intro s hs
    rw [hmain, findSummary_incClick_self, hs]
    rfl

/-- Witness for C2 at concrete inputs: a click on an identifier with no
summary leaves none, and a click on an existing summary without a
click_count field sets it to 1. -/
theorem C2_amended_witness :
    findSummary (track_click extExn false false Store.empty
        ⟨some "t", some "https://e.com", "9.9.9.9", "ua", "t1"⟩).1.tracked_emails "t" = none ∧
    findSummary (track_click extExn false false
        ⟨[{ id := "t", open_count := 1, click_count := none,
            first_opened_at := some "t0", last_opened_at := some "t0",
            created_at := some "t0" }], [], []⟩
        ⟨some "t", some "https://e.com", "9.9.9.9", "ua", "t1"⟩).1.tracked_emails "t" =
      some { id := "t", open_count := 1, click_count := some 1,
             first_opened_at := some "t0", last_opened_at := some "t0",
             created_at := some "t0" } := by
  constructor
  · exact (C2_amended extExn Store.empty "t" "https://e.com" "9.9.9.9" "ua" "t1"
      (by decide) (by decide)).2.1 (by decide)
  · exact (C2_amended extExn
      ⟨[{ id := "t", open_count := 1, click_count := none,
          first_opened_at := some "t0", last_opened_at := some "t0",
          created_at := some "t0" }], [], []⟩ "t" "https://e.com" "9.9.9.9" "ua" "t1"
      (by decide) (by decide)).2.2
      { id := "t", open_count := 1, click_count := none,
        first_opened_at := some "t0", last_opened_at := some "t0",
        created_at := some "t0" } (by decide)

/-- summaryOpenCount restated through findSummary on the store's
summary list. -/
theorem summaryOpenCount_def (ts : List Summary) (es : List OpenEvent)
    (cs : List ClickEvent) (id : String) :
    summaryOpenCount ⟨ts, es, cs⟩ id =
      (match findSummary ts id with
       | some s => s.open_count
       | none => 0) := rfl

/-- summaryClickCount restated through findSummary on the store's
summary list. -/
theorem summaryClickCount_def (ts : List Summary) (es : List OpenEvent)
    (cs : List ClickEvent) (id : String) :
    summaryClickCount ⟨ts, es, cs⟩ id =
      (match findSummary ts id with
       | some s => s.click_count.getD 0
       | none => 0) := rfl

/-- incOpen raises the open count of its identifier by exactly one. -/
theorem openCount_incOpen_self (ts : List Summary) (id now : String) :
    (match findSummary (incOpen id now ts) id with
     | some s => s.open_count
     | none => 0) =
      (match findSummary ts id with
       | some s => s.open_count
       | none => 0) + 1 := by
  rw [findSummary_incOpen_self]
  cases findSummary ts id <;> rfl

/-- incOpen does not change the click count of any identifier. -/
theorem clickCount_incOpen (ts : List Summary) (id now id' : String) :
    (match findSummary (incOpen id now ts) id' with
     | some s => s.click_count.getD 0
     | none => 0) =
      (match findSummary ts id' with
       | some s => s.click_count.getD 0
       | none => 0) := by
  by_cases h : id' = id
  · subst h
    rw [findSummary_incOpen_self]
    cases findSummary ts id' <;> rfl
  · rw [findSummary_incOpen_other ts id now id' h]

/-- incClick does not change the open count of any identifier. -/
theorem openCount_incClick (ts : List Summary) (id id' : String) :
    (match findSummary (incClick id ts) id' with
     | some s => s.open_count
     | none => 0) =
      (match findSummary ts id' with
       | some s => s.open_count
       | none => 0) := by
  by_cases h : id' = id
  · subst h
    rw [findSummary_incClick_self]
    cases findSummary ts id' <;> rfl
  · rw [findSummary_incClick_other ts id id' h]

/-- When a summary for the identifier exists, incClick raises its click
count by exactly one. -/
theorem clickCount_incClick_self (ts : List Summary) (id : String)
    (h : (findSummary ts id).isSome = true) :
    (match findSummary (incClick id ts) id with
     | some s => s.click_count.getD 0
     | none => 0) =
      (match findSummary ts id with
       | some s => s.click_count.getD 0
       | none => 0) + 1 := by
  rw [findSummary_incClick_self]
  cases hf : findSummary ts id with
  | some s => rfl
  | none => rw [hf] at h; exact absurd h (by decide)

/-- With both storage calls succeeding, a proxy-matching Hop-2 request
appends exactly one confirmed, enriched OpenEvent, leaves the clicks
untouched, raises the identifier's open count by one, and upserts the
summary: fresh timestamps on insert, last_opened_at refreshed on
update. -/
theorem track_final_confirmed_effects (ext : ExtOracle) (st : Store) (r : FinalReq)
    (h : containsSubstr "GoogleImageProxy" r.user_agent = true) :
    (track_final_confirmation ext false false st r).1.open_events =
      st.open_events ++
        [{ uid := r.tracking_id, ip := r.ip, user_agent := r.user_agent,
           opened_at := r.now, is_real_open := true,
           geo_info := some (get_ip_info ext r.ip) }] ∧
    (track_final_confirmation ext false false st r).1.clicks = st.clicks ∧
    summaryOpenCount (track_final_confirmation ext false false st r).1 r.tracking_id =
      summaryOpenCount st r.tracking_id + 1 ∧
    (findSummary st.tracked_emails r.tracking_id = none →
      findSummary (track_final_confirmation ext false false st r).1.tracked_emails
          r.tracking_id =
        some { id := r.tracking_id, open_count := 1, click_count := none,
               first_opened_at := some r.now, last_opened_at := some r.now,
               created_at := some r.now }) ∧
    (∀ s, findSummary st.tracked_emails r.tracking_id = some s →
      findSummary (track_final_confirmation ext false false st r).1.tracked_emails
          r.tracking_id =
        some { s with open_count := s.open_count + 1, last_opened_at := some r.now }) := by
  have h1 : (track_final_confirmation ext false false st r).1 =
      { st with
        tracked_emails := incOpen r.tracking_id r.now st.tracked_emails,
        open_events := st.open_events ++
          [{ uid := r.tracking_id, ip := r.ip, user_agent := r.user_agent,
             opened_at := r.now, is_real_open := true,
             geo_info := some (get_ip_info ext r.ip) }] } := by
    simp [track_final_confirmation, h]
  refine ⟨by rw [h1], by rw [h1], ?_, ?_, ?_⟩
  · rw [h1]
    cases st with
    | mk ts es cs =>
        rw [summaryOpenCount_def, summaryOpenCount_def]
        exact openCount_incOpen_self ts r.tracking_id r.now
  · intro hn
    rw [h1]
    show findSummary (incOpen r.tracking_id r.now st.tracked_emails) r.tracking_id = _
    rw [findSummary_incOpen_self, hn]
  · intro s hs
    rw [h1]
    show findSummary (incOpen r.tracking_id r.now st.tracked_emails) r.tracking_id = _
    rw [findSummary_incOpen_self, hs]

/-- Claim C5: a Hop-2 request with a user-agent not containing the proxy
signature persists an unconfirmed OpenEvent carrying no enrichment
metadata and leaves the summaries untouched; one whose user-agent matches
persists a confirmed OpenEvent carrying enrichment metadata, raises
open_count by one, sets last_opened_at, and sets first_opened_at and
created_at only when the summary is being inserted. -/
theorem C5_hop2_classification (ext : ExtOracle) (st : Store) (r : FinalReq) :
    (containsSubstr "GoogleImageProxy" r.user_agent = false →
      track_final_confirmation ext false false st r =
        ({ st with open_events := st.open_events ++
            [{ uid := r.tracking_id, ip := r.ip, user_agent := r.user_agent,
               opened_at := r.now, is_real_open := false, geo_info := none }] },
         pixelResponse)) ∧
    (containsSubstr "GoogleImageProxy" r.user_agent = true →
      (track_final_confirmation ext false false st r).1.open_events =
        st.open_events ++
          [{ uid := r.tracking_id, ip := r.ip, user_agent := r.user_agent,
             opened_at := r.now, is_real_open := true,
             geo_info := some (get_ip_info ext r.ip) }] ∧
      (track_final_confirmation ext false false st r).1.clicks = st.clicks ∧
      summaryOpenCount (track_final_confirmation ext false false st r).1 r.tracking_id =
        summaryOpenCount st r.tracking_id + 1 ∧
      (findSummary st.tracked_emails r.tracking_id = none →
        findSummary (track_final_confirmation ext false false st r).1.tracked_emails
            r.tracking_id =
          some { id := r.tracking_id, open_count := 1, click_count := none,
                 first_opened_at := some r.now, last_opened_at := some r.now,
                 created_at := some r.now }) ∧
      (∀ s, findSummary st.tracked_emails r.tracking_id = some s →
        findSummary (track_final_confirmation ext false false st r).1.tracked_emails
            r.tracking_id =
          some { s with open_count := s.open_count + 1, last_opened_at := some r.now })) := by
  constructor
  · intro h
    simp [track_final_confirmation, h]
  · intro h
    exact track_final_confirmed_effects ext st r h

/-- Witness for C5 at concrete inputs: a browser hit stores an
unconfirmed, unenriched event and changes no summary, while a proxy hit
on a fresh identifier stores a confirmed enriched event and creates the
summary with open_count 1 and all timestamps set. -/
theorem C5_hop2_classification_witness :
    track_final_confirmation extOk false false Store.empty
        ⟨"t", "r", "Mozilla/5.0", "9.9.9.9", "t0"⟩ =
      ({ Store.empty with open_events :=
          [{ uid := "t", ip := "9.9.9.9", user_agent := "Mozilla/5.0",
             opened_at := "t0", is_real_open := false, geo_info := none }] },
       pixelResponse) ∧
    (track_final_confirmation extOk false false Store.empty
        ⟨"t", "r", "GoogleImageProxy", "9.9.9.9", "t0"⟩).1.open_events =
      [{ uid := "t", ip := "9.9.9.9", user_agent := "GoogleImageProxy",
         opened_at := "t0", is_real_open := true,
         geo_info := some (get_ip_info extOk "9.9.9.9") }] ∧
    summaryOpenCount (track_final_confirmation extOk false false Store.empty
        ⟨"t", "r", "GoogleImageProxy", "9.9.9.9", "t0"⟩).1 "t" =
      summaryOpenCount Store.empty "t" + 1 ∧
    findSummary (track_final_confirmation extOk false false Store.empty
        ⟨"t", "r", "GoogleImageProxy", "9.9.9.9", "t0"⟩).1.tracked_emails "t" =
      some { id := "t", open_count := 1, click_count := none,
             first_opened_at := some "t0", last_opened_at := some "t0",
             created_at := some "t0" } := by
  refine ⟨?_, ?_, ?_, ?_⟩
  · exact (C5_hop2_classification extOk Store.empty
      ⟨"t", "r", "Mozilla/5.0", "9.9.9.9", "t0"⟩).1 (by decide)
  · have h := (C5_hop2_classification extOk Store.empty
      ⟨"t", "r", "GoogleImageProxy", "9.9.9.9", "t0"⟩).2 (by decide)
    simpa using h.1
  · exact ((C5_hop2_classification extOk Store.empty
      ⟨"t", "r", "GoogleImageProxy", "9.9.9.9", "t0"⟩).2 (by decide)).2.2.1
  · exact ((C5_hop2_classification extOk Store.empty
      ⟨"t", "r", "GoogleImageProxy", "9.9.9.9", "t0"⟩).2 (by decide)).2.2.2.1 (by decide)

/-- Claim C10: the confirmation endpoint never inspects the attempt
identifier: its entire outcome is unchanged under any substitution of the
attempt identifier, the stored event record contains no attempt-identifier
field, and for a proxy-matching user-agent every attempt identifier —
fresh or replayed — yields a confirmed stored OpenEvent and an open_count
one higher. -/
theorem C10_attempt_id_unchecked (ext : ExtOracle) (updateFails insertFails : Bool)
    (st : Store) (tid rid rid' ua ip now : String)
    (hproxy : containsSubstr "GoogleImageProxy" ua = true) :
    track_final_confirmation ext updateFails insertFails st ⟨tid, rid, ua, ip, now⟩ =
      track_final_confirmation ext updateFails insertFails st ⟨tid, rid', ua, ip, now⟩ ∧
    (updateFails = false → insertFails = false →
      (track_final_confirmation ext updateFails insertFails st
          ⟨tid, rid, ua, ip, now⟩).1.open_events =
        st.open_events ++
          [{ uid := tid, ip := ip, user_agent := ua, opened_at := now,
             is_real_open := true, geo_info := some (get_ip_info ext ip) }] ∧
      summaryOpenCount (track_final_confirmation ext updateFails insertFails st
          ⟨tid, rid, ua, ip, now⟩).1 tid =
        summaryOpenCount st tid + 1) := by
  refine ⟨rfl, ?_⟩
  intro hu hi
  subst hu
  subst hi
  exact ⟨(track_final_confirmed_effects ext st ⟨tid, rid, ua, ip, now⟩ hproxy).1,
         (track_final_confirmed_effects ext st ⟨tid, rid, ua, ip, now⟩ hproxy).2.2.1⟩

/-- Witness for C10 at concrete inputs: an attempt identifier never
minted by Hop 1 behaves exactly like any other, the stored event is
confirmed, and open_count rises by one. -/
theorem C10_attempt_id_unchecked_witness :
    track_final_confirmation extOk false false Store.empty
        ⟨"t", "never-issued", "GoogleImageProxy", "9.9.9.9", "t0"⟩ =
      track_final_confirmation extOk false false Store.empty
        ⟨"t", "replayed-attempt", "GoogleImageProxy", "9.9.9.9", "t0"⟩ ∧
    (track_final_confirmation extOk false false Store.empty
        ⟨"t", "never-issued", "GoogleImageProxy", "9.9.9.9", "t0"⟩).1.open_events =
      Store.empty.open_events ++
        [{ uid := "t", ip := "9.9.9.9", user_agent := "GoogleImageProxy",
           opened_at := "t0", is_real_open := true,
           geo_info := some (get_ip_info extOk "9.9.9.9") }] ∧
    summaryOpenCount (track_final_confirmation extOk false false Store.empty
        ⟨"t", "never-issued", "GoogleImageProxy", "9.9.9.9", "t0"⟩).1 "t" =
      summaryOpenCount Store.empty "t" + 1 := by
  have h := C10_attempt_id_unchecked extOk false false Store.empty
    "t" "never-issued" "replayed-attempt" "GoogleImageProxy" "9.9.9.9" "t0" (by decide)
  exact ⟨h.1, (h.2 rfl rfl).1, (h.2 rfl rfl).2⟩

/-- confirmedOpens restated as a filter over the open-event list. -/
theorem confirmedOpens_def (ts : List Summary) (es : List OpenEvent)
    (cs : List ClickEvent) (id : String) :
    confirmedOpens ⟨ts, es, cs⟩ id =
      (es.filter (fun e => e.uid == id && e.is_real_open)).length := rfl

/-- storedClicks restated as a filter over the click-event list. -/
theorem storedClicks_def (ts : List Summary) (es : List OpenEvent)
    (cs : List ClickEvent) (id : String) :
    storedClicks ⟨ts, es, cs⟩ id =
      (cs.filter (fun e => e.uid == id)).length := rfl

/-- Appending one element changes a filter's length by one exactly when
the element satisfies the predicate. -/
theorem length_filter_append_single {α : Type} (p : α → Bool) (l : List α) (e : α) :
    ((l ++ [e]).filter p).length =
      (l.filter p).length + (if p e then 1 else 0) := by
  rw [List.filter_append]
  cases h : p e <;> simp [List.filter_cons, h]

/-- A Hop-2 request whose two storage calls both succeed preserves the
count invariant. -/
theorem step_hop2_preserves (ext : ExtOracle) (ts : List Summary)
    (es : List OpenEvent) (cs : List ClickEvent)
    (tid rid ua ip now : String)
    (hInv : countsInvariant ⟨ts, es, cs⟩) :
    countsInvariant (stepStore ext ⟨ts, es, cs⟩
      (Req.hop2 tid rid ua ip now false false)) := by
  cases hp : containsSubstr "GoogleImageProxy" ua with
  | false =>
      have hstep : stepStore ext ⟨ts, es, cs⟩ (Req.hop2 tid rid ua ip now false false) =
          ⟨ts, es ++ [{ uid := tid, ip := ip, user_agent := ua, opened_at := now,
                        is_real_open := false, geo_info := none }], cs⟩ := by
        simp [stepStore, track_final_confirmation, hp]
      rw [hstep]
      intro id
      have h1 := hInv id
      constructor
      · rw [summaryOpenCount_def, confirmedOpens_def, length_filter_append_single]
        rw [summaryOpenCount_def, confirmedOpens_def] at h1
        simpa using h1.1
      · exact h1.2
  | true =>
      have hstep : stepStore ext ⟨ts, es, cs⟩ (Req.hop2 tid rid ua ip now false false) =
          ⟨incOpen tid now ts,
           es ++ [{ uid := tid, ip := ip, user_agent := ua, opened_at := now,
                    is_real_open := true, geo_info := some (get_ip_info ext ip) }],
           cs⟩ := by
        simp [stepStore, track_final_confirmation, hp]
      rw [hstep]
      intro id
      have h1 := hInv id
      constructor
      · rw [summaryOpenCount_def, confirmedOpens_def, length_filter_append_single]
        rw [summaryOpenCount_def, confirmedOpens_def] at h1
        by_cases hid : id = tid
        · subst hid
          rw [openCount_incOpen_self, h1.1]
          simp
        · rw [findSummary_incOpen_other ts tid now id hid, h1.1]
          have hb : (tid == id) = false := by simpa using fun hh => hid hh.symm
          simp [hb]
      · rw [summaryClickCount_def, clickCount_incOpen, storedClicks_def]
        rw [summaryClickCount_def, storedClicks_def] at h1
        exact h1.2

/-- A click request whose two storage calls both succeed and which, when
accepted, targets an identifier that already has a summary document,
preserves the count invariant. -/
theorem step_click_preserves (ext : ExtOracle) (ts : List Summary)
    (es : List OpenEvent) (cs : List ClickEvent)
    (uid url : Option String) (ip ua now : String)
    (hInv : countsInvariant ⟨ts, es, cs⟩)
    (hsafe : (!(clickAccepted uid url) || summaryExists ts (uid.getD "")) = true) :
    countsInvariant (stepStore ext ⟨ts, es, cs⟩
      (Req.click uid url ip ua now false false)) := by
  cases hacc : clickAccepted uid url with
  | false =>
      have hstep : stepStore ext ⟨ts, es, cs⟩ (Req.click uid url ip ua now false false) =
          ⟨ts, es, cs⟩ := by
        unfold clickAccepted at hacc
        unfold stepStore track_click
        cases h1 : truthy uid with
        | false => simp [h1]
        | true =>
            cases h2 : truthy url with
            | false => simp [h1, h2]
            | true =>
                simp only [h1, h2, Bool.true_and] at hacc
                simp [h1, h2, hacc]
      rw [hstep]
      exact hInv
  | true =>
      have hex : summaryExists ts (uid.getD "") = true := by
        rw [hacc] at hsafe
        simpa using hsafe
      have hparts : (truthy uid = true ∧ truthy url = true) ∧
          hasHttpScheme (url.getD "") = true := by
        have hc := hacc
        unfold clickAccepted at hc
        rw [Bool.and_eq_true, Bool.and_eq_true] at hc
        exact hc
      have hstep : stepStore ext ⟨ts, es, cs⟩ (Req.click uid url ip ua now false false) =
          ⟨incClick (uid.getD "") ts, es,
           cs ++ [{ uid := uid.getD "", destination_url := url.getD "",
                    ip := ip, user_agent := ua, clicked_at := now,
                    geo_info := get_ip_info ext ip }]⟩ := by
        simp [stepStore, track_click, hparts.1.1, hparts.1.2, hparts.2]
      rw [hstep]
      intro i
      have hI := hInv i
      constructor
      · rw [summaryOpenCount_def, confirmedOpens_def, openCount_incClick]
        rw [summaryOpenCount_def, confirmedOpens_def] at hI
        exact hI.1
      · rw [summaryClickCount_def, storedClicks_def, length_filter_append_single]
        rw [summaryClickCount_def, storedClicks_def] at hI
        by_cases hid : i = uid.getD ""
        · rw [hid, clickCount_incClick_self ts (uid.getD "") hex]
          rw [hid] at hI
          rw [hI.2]
          simp
        · rw [findSummary_incClick_other ts (uid.getD "") i hid, hI.2]
          have hb : ((uid.getD "") == i) = false := by
            simpa using fun hh => hid hh.symm
          simp [hb]

/-- Handling a failure-free, click-safe trace preserves the count
invariant. -/
theorem runReqs_preserves (ext : ExtOracle) (rs : List Req) :
    ∀ st : Store, countsInvariant st →
      noStorageFailures rs = true → clicksSafe ext st rs = true →
      countsInvariant (runReqs ext st rs) := by
  induction rs with
  | nil => intro st h _ _; exact h
  | cons r rs ih =>
      intro st hInv hnf hsafe
      unfold noStorageFailures at hnf
      rw [List.all_cons, Bool.and_eq_true] at hnf
      unfold clicksSafe at hsafe
      rw [Bool.and_eq_true] at hsafe
      refine ih (stepStore ext st r) ?_ hnf.2 hsafe.2
      cases r with
      | hop2 tid rid ua ip now uf inf =>
          obtain ⟨huf, hinf⟩ : uf = false ∧ inf = false := by simpa using hnf.1
          subst huf
          subst hinf
          cases st with
          | mk ts es cs => exact step_hop2_preserves ext ts es cs tid rid ua ip now hInv
      | click uid url ip ua now inf uf =>
          obtain ⟨hinf, huf⟩ : inf = false ∧ uf = false := by simpa using hnf.1
          subst huf
          subst hinf
          have hhead : (!(clickAccepted uid url) ||
              summaryExists st.tracked_emails (uid.getD "")) = true := hsafe.1
          cases st with
          | mk ts es cs =>
              exact step_click_preserves ext ts es cs uid url ip ua now hInv hhead

/-- Claim C1 counterexample: the invariant fails on the code at two
concrete single-request traces.  First, a confirmed open whose summary
update succeeds but whose event insert then raises leaves open_count = 1
against zero stored confirmed OpenEvents.  Second, a fully successful
first click on an identifier with no summary stores a ClickEvent while no
summary click_count exists at all. -/
theorem C1_counterexample :
    ¬ (summaryOpenCount (runReqs extExn Store.empty
          [Req.hop2 "t" "r" "GoogleImageProxy" "9.9.9.9" "t0" false true]) "t" =
        confirmedOpens (runReqs extExn Store.empty
          [Req.hop2 "t" "r" "GoogleImageProxy" "9.9.9.9" "t0" false true]) "t") ∧
    ¬ (summaryClickCount (runReqs extExn Store.empty
          [Req.click (some "t") (some "https://e.com") "9.9.9.9" "ua" "t0" false false]) "t" =
        storedClicks (runReqs extExn Store.empty
          [Req.click (some "t") (some "https://e.com") "9.9.9.9" "ua" "t0" false false]) "t") := by
  refine ⟨by decide, by decide⟩

/-- Claim C1 amended: starting from the empty store, the invariant —
open_count equals the number of stored confirmed OpenEvents and
click_count the number of stored ClickEvents, per identifier — holds
after every request of a trace in which every storage step succeeds and
every accepted click targets an identifier whose summary already exists;
a storage failure partway through a request, or a click preceding the
first confirmed open of its identifier, can break it. -/
theorem C1_amended (ext : ExtOracle) (rs : List Req)
    (hnf : noStorageFailures rs = true)
    (hsafe : clicksSafe ext Store.empty rs = true) (id : String) :
    summaryOpenCount (runReqs ext Store.empty rs) id =
      confirmedOpens (runReqs ext Store.empty rs) id ∧
    summaryClickCount (runReqs ext Store.empty rs) id =
      storedClicks (runReqs ext Store.empty rs) id :=
  runReqs_preserves ext rs Store.empty (fun _ => ⟨rfl, rfl⟩) hnf hsafe id

/-- Witness for C1 at a concrete trace: one confirmed open then one
click on the same identifier, all storage succeeding, leaves the counts
in agreement. -/
theorem C1_amended_witness :
    noStorageFailures c1Trace = true ∧
    clicksSafe extOk Store.empty c1Trace = true ∧
    (summaryOpenCount (runReqs extOk Store.empty c1Trace) "t" =
        confirmedOpens (runReqs extOk Store.empty c1Trace) "t" ∧
      summaryClickCount (runReqs extOk Store.empty c1Trace) "t" =
        storedClicks (runReqs extOk Store.empty c1Trace) "t") :=
  ⟨by decide, by decide, C1_amended extOk c1Trace (by decide) (by decide) "t"⟩

end GmailTracking
